import Mathlib

/-!
Verification of the video-clipper job polling client of this repository
(`src/frontend/src/App.jsx`), together with spec-modelled transition systems
for the backend job lifecycle (whose Python implementation is not part of
the sources under study; only the React client that calls it is).

The client keeps a mirror of the current job (`currentJob`) and three
polling loops built on `setInterval`:
  * `startSmartPolling` (App.jsx:1563-1637),
  * `startRenderPolling` (App.jsx:1809-1858),
  * `startPolling`       (App.jsx:1863-1953).
Each loop is embedded as a `tick` function consuming one server response per
interval firing, returning the next client state and the list of network
events (fetches) the tick issues.  A whole polling session is the fold of
`tick` over a trace of responses, which stops consuming input once the
interval has been cleared (`polling = false`).
-/

namespace VideoClipper

/-- The JSON payload of a successful `GET /api/clipper/job/{id}` response:
`{status, progress, stage, detail, error}` (spec section 6). -/
structure JobData where
  status : String
  progress : ℚ
  stage : String
  detail : String
  error : Option String
deriving DecidableEq, Repr

/-- The client's `currentJob` mirror object: `{id, status, progress, stage,
detail, error}` as assembled by `setCurrentJob` calls in App.jsx. -/
structure ClientJob where
  id : String
  status : String
  progress : ℚ
  stage : String
  detail : String
  error : Option String
deriving DecidableEq, Repr

/-- One server response observed by a polling tick.
`ok d` is a 2xx response whose JSON body parsed to `d`.
`notFound` is HTTP 404.  `serverError c` is an HTTP error status `c`
(the code checks for 500/502/503); such responses come from a crashed or
proxied-away server and carry a non-JSON body, so a subsequent
`res.json()` call throws.  `netError` is a rejected `fetch` (network
failure). -/
inductive PollResponse where
  | notFound : PollResponse
  | serverError : Nat → PollResponse
  | ok : JobData → PollResponse
  | netError : PollResponse
deriving DecidableEq, Repr

/-- Is the response a transient error (404, HTTP error status, or network
failure) rather than a parsed 2xx payload? -/
def PollResponse.isTransientError : PollResponse → Bool
  | .notFound => true
  | .serverError _ => true
  | .netError => true
  | .ok _ => false

/-- Network events a polling tick can issue: the job-status fetch itself,
the logs fetch, a progressive (non-final) results fetch, and the final
results fetch issued once on completion. -/
inductive PollEvent where
  | statusFetch : PollEvent
  | logsFetch : PollEvent
  | progressiveResultsFetch : PollEvent
  | finalResultsFetch : PollEvent
deriving DecidableEq, Repr

/-- Client state of the `startSmartPolling` loop (App.jsx:1563-1637):
the `notFoundCount` counter, the `currentJob` mirror, the `clipperPhase`
string, whether the `clipper_current_job` localStorage record is present,
and whether the interval is still installed. -/
structure SmartPollState where
  notFoundCount : Nat
  job : ClientJob
  phase : String
  stored : Bool
  polling : Bool
deriving DecidableEq, Repr

/-- The error message set by `startSmartPolling` when the job is lost
(App.jsx:1583). -/
def jobLostMessage : String :=
  "Job lost - server may have restarted. Please try again."

/-- One firing of the `startSmartPolling` interval callback
(App.jsx:1567-1634).  The input is the status-fetch response paired with
the outcome of the `Math.random() < 0.2` draw at App.jsx:1616. -/
def smartPollingTick (s : SmartPollState) (inp : PollResponse × Bool) :
    SmartPollState × List PollEvent :=
  match inp.1 with
  | .netError =>
      -- `fetch` threw before any state change; the catch only logs.
      (s, [.statusFetch])
  | .notFound =>
      -- App.jsx:1573-1588
      let n := s.notFoundCount + 1
      if 3 ≤ n then
        ({ s with
            notFoundCount := n, polling := false,
            job := { s.job with status := "failed", error := some jobLostMessage },
            phase := "input" }, [.statusFetch])
      else
        ({ s with notFoundCount := n }, [.statusFetch])
  | .serverError _ =>
      -- Not a 404, so `notFoundCount = 0` runs (App.jsx:1591); then
      -- `res.json()` throws on the non-JSON error body and the catch
      -- (App.jsx:1631) only logs.
      ({ s with notFoundCount := 0 }, [.statusFetch])
  | .ok d =>
      -- App.jsx:1591-1630
      let s0 := { s with
        notFoundCount := 0,
        job := { s.job with
          status := d.status, progress := d.progress,
          stage := d.stage, detail := d.detail } }
      if d.status = "processing" then
        ({ s0 with phase := "downloading" },
          [.statusFetch, .logsFetch] ++
            (if inp.2 then [.progressiveResultsFetch] else []))
      else if d.status = "completed" then
        ({ s0 with polling := false, stored := false },
          [.statusFetch, .logsFetch, .finalResultsFetch])
      else if d.status = "failed" then
        ({ s0 with
            polling := false, stored := false, phase := "input",
            job := { s0.job with error := some (d.error.getD d.detail) } },
          [.statusFetch, .logsFetch])
      else
        (s0, [.statusFetch, .logsFetch])

/-- Client state of the `startRenderPolling` loop (App.jsx:1809-1858):
no error counter at all, only the job mirror, the phase, and the
interval flag. -/
structure RenderPollState where
  job : ClientJob
  phase : String
  polling : Bool
deriving DecidableEq, Repr

/-- One firing of the `startRenderPolling` interval callback
(App.jsx:1812-1855).  There is no 404/5xx handling: on any response whose
body is not valid JSON (404 and HTTP error bodies) `res.json()` throws and
the catch (App.jsx:1852) only logs, so the state is unchanged. -/
def renderPollingTick (s : RenderPollState) (r : PollResponse) :
    RenderPollState × List PollEvent :=
  match r with
  | .ok d =>
      let s0 := { s with
        job := { s.job with
          status := d.status, progress := d.progress,
          stage := d.stage, detail := d.detail } }
      if d.status = "completed" then
        ({ s0 with polling := false },
          [.statusFetch, .logsFetch, .finalResultsFetch])
      else if d.status = "failed" then
        ({ s0 with polling := false, phase := "select" },
          [.statusFetch, .logsFetch])
      else
        (s0, [.statusFetch, .logsFetch])
  | _ => (s, [.statusFetch])

/-- Client state of the `startPolling` loop (App.jsx:1863-1953): the shared
`pollErrorCountRef` counter, the polled job id, the job mirror, and the
interval flag. -/
structure PlainPollState where
  errCount : Nat
  jobId : String
  job : ClientJob
  polling : Bool
deriving DecidableEq, Repr

/-- The `currentJob` object `startPolling` installs when it gives up after
repeated 5xx responses (App.jsx:1880-1887). -/
def serverCrashedJob (jobId : String) : ClientJob :=
  { id := jobId, status := "failed", progress := 0, stage := "Server Crashed",
    detail := "Out of memory",
    error := some "Server ran out of memory while loading Whisper model." }

/-- The `currentJob` object `startPolling` installs when it gives up after
repeated 404 responses (App.jsx:1900-1907). -/
def jobLostJob (jobId : String) : ClientJob :=
  { id := jobId, status := "failed", progress := 0, stage := "Job Lost",
    detail := "Server restarted",
    error := some "Job was lost because the server restarted." }

/-- The `currentJob` object `startPolling` installs when it gives up after
repeated network errors (App.jsx:1940-1947). -/
def connectionLostJob (jobId : String) : ClientJob :=
  { id := jobId, status := "failed", progress := 0, stage := "Connection Lost",
    detail := "Network error",
    error := some "Lost connection to server. Please try again." }

/-- One firing of the `startPolling` interval callback (App.jsx:1868-1950).
A single counter serves 5xx responses (threshold 3, App.jsx:1877), 404
responses (threshold 2, App.jsx:1897), and network errors (threshold 5,
App.jsx:1937); any successfully parsed response resets it (App.jsx:1913). -/
def plainPollingTick (s : PlainPollState) (r : PollResponse) :
    PlainPollState × List PollEvent :=
  match r with
  | .serverError c =>
      if c = 502 ∨ c = 503 ∨ c = 500 then
        -- App.jsx:1873-1890
        let n := s.errCount + 1
        if 3 ≤ n then
          ({ s with
              errCount := n, polling := false,
              job := serverCrashedJob s.jobId }, [.statusFetch])
        else
          ({ s with errCount := n }, [.statusFetch])
      else
        -- Other error statuses fall through the 404 check, reset the
        -- counter (App.jsx:1913), then `res.json()` throws on the
        -- non-JSON body and the catch increments it back to 1.
        ({ s with errCount := 1 }, [.statusFetch])
  | .notFound =>
      -- App.jsx:1893-1910
      let n := s.errCount + 1
      if 2 ≤ n then
        ({ s with
            errCount := n, polling := false,
            job := jobLostJob s.jobId }, [.statusFetch])
      else
        ({ s with errCount := n }, [.statusFetch])
  | .netError =>
      -- App.jsx:1933-1948
      let n := s.errCount + 1
      if 5 ≤ n then
        ({ s with
            errCount := n, polling := false,
            job := connectionLostJob s.jobId }, [.statusFetch])
      else
        ({ s with errCount := n }, [.statusFetch])
  | .ok d =>
      -- App.jsx:1912-1932
      let s0 := { s with
        errCount := 0,
        job := { id := s.jobId, status := d.status, progress := d.progress,
                 stage := d.stage, detail := d.detail, error := d.error } }
      if d.status = "completed" then
        ({ s0 with polling := false }, [.statusFetch, .finalResultsFetch])
      else if d.status = "failed" ∨ d.status = "cancelled" then
        ({ s0 with polling := false }, [.statusFetch])
      else
        (s0, [.statusFetch])

/-- A client polling loop: the `setInterval` period in milliseconds and the
per-firing callback. -/
structure PollingLoop (σ ι : Type) where
  intervalMs : Nat
  tick : σ → ι → σ × List PollEvent

/-- `startSmartPolling` (App.jsx:1563-1637): its interval literal is 2000
(App.jsx:1634). -/
def startSmartPolling : PollingLoop SmartPollState (PollResponse × Bool) :=
  { intervalMs := 2000, tick := smartPollingTick }

/-- `startRenderPolling` (App.jsx:1809-1858): its interval literal is 2000
(App.jsx:1855). -/
def startRenderPolling : PollingLoop RenderPollState PollResponse :=
  { intervalMs := 2000, tick := renderPollingTick }

/-- `startPolling` (App.jsx:1863-1953): its interval literal is 2000
(App.jsx:1950). -/
def startPolling : PollingLoop PlainPollState PollResponse :=
  { intervalMs := 2000, tick := plainPollingTick }

/-- Time (ms after the loop starts) of the n-th interval firing:
`setInterval` first fires one period after installation. -/
def fetchTimeMs {σ ι : Type} (L : PollingLoop σ ι) (n : Nat) : Nat :=
  L.intervalMs * (n + 1)

/-- Fold a tick function over a trace of responses; once the interval has
been cleared (`alive` is false) the remaining trace is ignored. -/
def runState {σ ι : Type} (tick : σ → ι → σ × List PollEvent)
    (alive : σ → Bool) (s : σ) (tr : List ι) : σ :=
  tr.foldl (fun s i => if alive s then (tick s i).1 else s) s

/-- The concatenated network events of a polling session over a trace;
responses arriving after the interval was cleared produce no events. -/
def runEvents {σ ι : Type} (tick : σ → ι → σ × List PollEvent)
    (alive : σ → Bool) (s : σ) : List ι → List PollEvent
  | [] => []
  | i :: tr =>
      if alive s then (tick s i).2 ++ runEvents tick alive (tick s i).1 tr
      else []

/-- `startSmartPolling` session state after a response trace. -/
def smartRunState (s : SmartPollState) (tr : List (PollResponse × Bool)) :
    SmartPollState :=
  runState smartPollingTick (fun s => s.polling) s tr

/-- `startSmartPolling` session events over a response trace. -/
def smartRunEvents (s : SmartPollState) (tr : List (PollResponse × Bool)) :
    List PollEvent :=
  runEvents smartPollingTick (fun s => s.polling) s tr

/-- `startRenderPolling` session state after a response trace. -/
def renderRunState (s : RenderPollState) (tr : List PollResponse) :
    RenderPollState :=
  runState renderPollingTick (fun s => s.polling) s tr

/-- `startRenderPolling` session events over a response trace. -/
def renderRunEvents (s : RenderPollState) (tr : List PollResponse) :
    List PollEvent :=
  runEvents renderPollingTick (fun s => s.polling) s tr

/-- `startPolling` session state after a response trace. -/
def plainRunState (s : PlainPollState) (tr : List PollResponse) :
    PlainPollState :=
  runState plainPollingTick (fun s => s.polling) s tr

/-- `startPolling` session events over a response trace. -/
def plainRunEvents (s : PlainPollState) (tr : List PollResponse) :
    List PollEvent :=
  runEvents plainPollingTick (fun s => s.polling) s tr

/-- A freshly started job mirror as set up by `handleSmartProcess`
(App.jsx:1541-1547). -/
def freshJob (jobId : String) : ClientJob :=
  { id := jobId, status := "processing", progress := 0,
    stage := "Downloading video...", detail := "", error := none }

/-- State right after `startSmartPolling(jobId)` is entered:
`notFoundCount` initialised to 0 (App.jsx:1565), interval installed. -/
def smartPollInit (jobId : String) : SmartPollState :=
  { notFoundCount := 0, job := freshJob jobId, phase := "downloading",
    stored := true, polling := true }

/-- State right after `startRenderPolling(jobId)` is entered
(App.jsx:1794-1800 set the job mirror to rendering/progress 0 first). -/
def renderPollInit (jobId : String) : RenderPollState :=
  { job := { id := jobId, status := "rendering", progress := 0,
             stage := "Rendering on Railway...", detail := "", error := none },
    phase := "rendering", polling := true }

/-- State right after `startPolling(jobId)` is entered: the error counter
is reset to 0 (App.jsx:1865-1866), interval installed. -/
def plainPollInit (jobId : String) : PlainPollState :=
  { errCount := 0, jobId := jobId, job := freshJob jobId, polling := true }

/-- The `clipper_current_job` localStorage record:
`{id, startedAt: Date.now()}` (App.jsx:1714-1717). -/
structure StoredJob where
  id : String
  startedAt : Int
deriving DecidableEq, Repr

/-- The persistence effect of App.jsx:1712-1719: when the current job has a
(truthy, i.e. nonempty) id and its status is `processing`, write
`{id, startedAt: now}` to storage; otherwise leave storage untouched. -/
def persistJobEffect (storage : Option StoredJob) (job : Option ClientJob)
    (now : Int) : Option StoredJob :=
  match job with
  | some j =>
      if j.id ≠ "" ∧ j.status = "processing" then some { id := j.id, startedAt := now }
      else storage
  | none => storage

/-- What the resume-on-load effect decides to do. -/
inductive ResumeAction where
  | resumePolling : String → ResumeAction
  | discard : ResumeAction
  | idle : ResumeAction
deriving DecidableEq, Repr

/-- The resume effect of App.jsx:1722-1740: with a saved record and no
current job, resume polling the saved id when the record is under
30 minutes (`30 * 60 * 1000` ms) old, else remove the record and start
nothing.  Returns the action taken and the storage afterwards. -/
def resumeOnLoad (saved : Option StoredJob) (currentJob : Option ClientJob)
    (now : Int) : ResumeAction × Option StoredJob :=
  match saved, currentJob with
  | some rec, none =>
      if now - rec.startedAt < 30 * 60 * 1000 then
        (.resumePolling rec.id, some rec)
      else
        (.discard, none)
  | some rec, some _ => (.idle, some rec)
  | none, _ => (.idle, none)

/-! ### Spec-modelled backend job lifecycle

The backend that owns the job records (the Python server behind
`/api/clipper/...`) is not among the sources under study; only its React
client is.  The job lifecycle is therefore modelled from the spec
(sections 3, 4.2 and 4.4). -/

/-- Modelled from the spec: a backend Job record, reduced to the fields the
lifecycle invariants speak about (`status`, `progress`); the backend
implementation is not under the sources studied here. -/
structure ServerJob where
  status : String
  progress : ℚ
deriving DecidableEq, Repr

/-- The terminal statuses of the spec's data model (section 3). -/
def terminalStatuses : List String := ["completed", "failed", "cancelled"]

/-- Modelled from the spec: one observable mutation of a backend Job.
Spec section 3: status transitions are one-directional
(`queued→processing→{completed|failed|cancelled}`, or
`processing→waiting_for_worker→rendering→{completed|failed}`), and
progress is non-decreasing while `status = processing` (the stages update
progress through checkpoints, section 4.2).  `stay` is the absence of a
mutation between two observations. -/
inductive ServerStep : ServerJob → ServerJob → Prop where
  | stay (s : ServerJob) : ServerStep s s
  | start (s : ServerJob) (h : s.status = "queued") :
      ServerStep s { status := "processing", progress := s.progress }
  | progressUpdate (s : ServerJob) (p : ℚ) (h : s.status = "processing")
      (hp : s.progress ≤ p) :
      ServerStep s { status := "processing", progress := p }
  | toWaiting (s : ServerJob) (h : s.status = "processing") :
      ServerStep s { status := "waiting_for_worker", progress := s.progress }
  | toRendering (s : ServerJob) (h : s.status = "waiting_for_worker") :
      ServerStep s { status := "rendering", progress := s.progress }
  | finishFromProcessing (s : ServerJob) (t : String)
      (h : s.status = "processing") (ht : t ∈ terminalStatuses) :
      ServerStep s { status := t, progress := s.progress }
  | finishFromRendering (s : ServerJob) (t : String)
      (h : s.status = "rendering") (ht : t = "completed" ∨ t = "failed") :
      ServerStep s { status := t, progress := s.progress }

/-- Position of a status along the one-directional lifecycle; all terminal
statuses (and unknown ones) sit at the end. -/
def statusRank (st : String) : Nat :=
  if st = "queued" then 0
  else if st = "processing" then 1
  else if st = "waiting_for_worker" then 2
  else if st = "rendering" then 3
  else 4

/-- Modelled from the spec: a backend Job as seen by the cooperative
cancellation protocol (spec sections 4.4 and 8): its status and whether a
cancel request has been acknowledged; the backend implementation is not
under the sources studied here. -/
structure CancellableJob where
  status : String
  cancelRequested : Bool
deriving DecidableEq, Repr

/-- Modelled from the spec: one stage checkpoint of the cooperative
cancellation protocol (spec section 4.4: "a cancel request flips status
toward cancelling and the pipeline stage is expected to observe this and
stop at its next checkpoint").  A processing stage whose cancel flag is
set may only stop (to `cancelled`, or to another terminal status if the
stage was already finishing); without the flag it continues or finishes;
terminal jobs stay put. -/
inductive CancelStep : CancellableJob → CancellableJob → Prop where
  | observeCancel (s : CancellableJob) (h : s.status = "processing")
      (hc : s.cancelRequested = true) :
      CancelStep s { status := "cancelled", cancelRequested := true }
  | finishAtCheckpoint (s : CancellableJob) (t : String)
      (h : s.status = "processing") (ht : t ∈ terminalStatuses) :
      CancelStep s { status := t, cancelRequested := s.cancelRequested }
  | continueWork (s : CancellableJob) (h : s.status = "processing")
      (hc : s.cancelRequested = false) :
      CancelStep s { status := "processing", cancelRequested := false }
  | terminalStay (s : CancellableJob) (h : s.status ∈ terminalStatuses) :
      CancelStep s s

/-- The client's `cancelJob` handler (App.jsx:1955-1975): when the server
acknowledges the cancel request (`data.cancelled`), the `currentJob`
mirror's status flips to `cancelling`; otherwise nothing changes. -/
def cancelJob (job : ClientJob) (acknowledged : Bool) : ClientJob :=
  if acknowledged then
    { job with status := "cancelling", stage := "Cancelling...",
               detail := "Waiting for current operation to complete" }
  else job

/-- A sample in-flight status payload, for concrete instantiations. -/
def processingPayload : JobData :=
  { status := "processing", progress := 1/2, stage := "Transcribing audio",
    detail := "", error := none }

/-- A sample completed status payload, for concrete instantiations. -/
def completedPayload : JobData :=
  { status := "completed", progress := 1, stage := "Done", detail := "",
    error := none }

/-! ### Helper lemmas -/

theorem runEvents_nil_of_not_alive {σ ι : Type} (tick : σ → ι → σ × List PollEvent)
    (alive : σ → Bool) (s : σ) (h : alive s = false) (tr : List ι) :
    runEvents tick alive s tr = [] := by
  cases tr <;> simp [runEvents, h]

theorem runState_append {σ ι : Type} (tick : σ → ι → σ × List PollEvent)
    (alive : σ → Bool) (s : σ) (a b : List ι) :
    runState tick alive s (a ++ b) = runState tick alive (runState tick alive s a) b := by
  simp [runState, List.foldl_append]

/-- If every tick that emits `finalResultsFetch` emits it last and clears the
interval, then a whole session has nothing after a `finalResultsFetch`. -/
theorem runEvents_final_is_last {σ ι : Type} (tick : σ → ι → σ × List PollEvent)
    (alive : σ → Bool)
    (hTick : ∀ (s : σ) (i : ι) (l1 l2 : List PollEvent), alive s = true →
      (tick s i).2 = l1 ++ .finalResultsFetch :: l2 →
      l2 = [] ∧ alive (tick s i).1 = false) :
    ∀ (tr : List ι) (s : σ) (l1 l2 : List PollEvent),
      runEvents tick alive s tr = l1 ++ .finalResultsFetch :: l2 → l2 = [] := by
  intro tr
  induction tr with
  | nil =>
      intro s l1 l2 h
      simp [runEvents] at h
  | cons i tr ih =>
      intro s l1 l2 h
      by_cases ha : alive s = true
      · rw [runEvents, if_pos ha] at h
        rcases List.append_eq_append_iff.mp h with ⟨a, ha1, ha2⟩ | ⟨c, hc1, hc2⟩
        · exact ih (tick s i).1 a l2 ha2
        · cases c with
          | nil =>
              simp only [List.nil_append] at hc2
              exact ih (tick s i).1 [] l2 hc2.symm
          | cons x c =>
              obtain ⟨rfl, hc2'⟩ : x = PollEvent.finalResultsFetch ∧ l2 = c ++ runEvents tick alive (tick s i).1 tr := by
                constructor
                · exact (List.cons.injEq _ _ _ _ ▸ hc2).1.symm
                · exact (List.cons.injEq _ _ _ _ ▸ hc2).2
              obtain ⟨hcnil, hdead⟩ := hTick s i l1 c ha hc1
              subst hcnil
              rw [hc2', runEvents_nil_of_not_alive tick alive _ hdead]
              rfl
      · rw [runEvents, if_neg ha] at h
        simp at h

theorem renderPollingTick_error (s : RenderPollState) (r : PollResponse)
    (h : r.isTransientError = true) :
    renderPollingTick s r = (s, [.statusFetch]) := by
  cases r with
  | ok d => simp [PollResponse.isTransientError] at h
  | notFound => rfl
  | serverError c => rfl
  | netError => rfl

theorem renderRunState_error_replicate (n : ℕ) (s : RenderPollState)
    (r : PollResponse) (h : r.isTransientError = true) :
    renderRunState s (List.replicate n r) = s := by
  induction n generalizing s with
  | zero => rfl
  | succ n ih =>
      rw [List.replicate_succ]
      show runState _ _ _ (r :: List.replicate n r) = s
      rw [runState, List.foldl_cons]
      have hstep :
          (if (fun s : RenderPollState => s.polling) s = true
            then (renderPollingTick s r).1 else s) = s := by
        rw [renderPollingTick_error s r h]
        split <;> rfl
      rw [hstep]
      exact ih s

theorem smartPollState_reset_self (s : SmartPollState) (h : s.notFoundCount = 0) :
    ({ s with notFoundCount := 0 } : SmartPollState) = s := by
  cases s
  simp_all

theorem smartRunState_serverError_replicate (n c : ℕ) (b : Bool)
    (s : SmartPollState) (h : s.notFoundCount = 0) :
    smartRunState s (List.replicate n (.serverError c, b)) = s := by
  induction n generalizing s with
  | zero => rfl
  | succ n ih =>
      rw [List.replicate_succ]
      show runState _ _ _ ((PollResponse.serverError c, b) :: _) = s
      rw [runState, List.foldl_cons]
      have htick : (smartPollingTick s (.serverError c, b)).1 = s := by
        show ({ s with notFoundCount := 0 } : SmartPollState) = s
        exact smartPollState_reset_self s h
      have hstep :
          (if (fun s : SmartPollState => s.polling) s = true
            then (smartPollingTick s (.serverError c, b)).1 else s) = s := by
        rw [htick]; split <;> rfl
      rw [hstep]
      exact ih s h

theorem smartRunState_netError_replicate (n : ℕ) (b : Bool) (s : SmartPollState) :
    smartRunState s (List.replicate n (.netError, b)) = s := by
  induction n generalizing s with
  | zero => rfl
  | succ n ih =>
      rw [List.replicate_succ]
      show runState _ _ _ ((PollResponse.netError, b) :: _) = s
      rw [runState, List.foldl_cons]
      have hstep :
          (if (fun s : SmartPollState => s.polling) s = true
            then (smartPollingTick s (.netError, b)).1 else s) = s := by
        split <;> rfl
      rw [hstep]
      exact ih s

theorem smartPollingTick_final (s : SmartPollState) (i : PollResponse × Bool)
    (l1 l2 : List PollEvent) (ha : s.polling = true)
    (h : (smartPollingTick s i).2 = l1 ++ .finalResultsFetch :: l2) :
    l2 = [] ∧ (smartPollingTick s i).1.polling = false := by
  obtain ⟨r, b⟩ := i
  cases r with
  | netError =>
      simp only [smartPollingTick] at h
      rcases l1 with _ | ⟨x, l1⟩ <;> simp_all
  | notFound =>
      by_cases h3 : 3 ≤ s.notFoundCount + 1 <;>
        simp only [smartPollingTick, h3, if_true, if_false] at h <;>
        rcases l1 with _ | ⟨x, l1⟩ <;> simp_all
  | serverError c =>
      simp only [smartPollingTick] at h
      rcases l1 with _ | ⟨x, l1⟩ <;> simp_all
  | ok d =>
      by_cases hp : d.status = "processing"
      · simp only [smartPollingTick, hp, if_true] at h
        cases b <;>
          simp only [Bool.false_eq_true, if_true, if_false, List.append_nil] at h <;>
          rcases l1 with _ | ⟨x, _ | ⟨y, _ | ⟨z, l1⟩⟩⟩ <;> simp_all
      · by_cases hc : d.status = "completed"
        · simp only [smartPollingTick, hp, hc, if_true, if_false] at h ⊢
          rcases l1 with _ | ⟨x, _ | ⟨y, _ | ⟨z, l1⟩⟩⟩ <;> simp_all
        · by_cases hf : d.status = "failed" <;>
            simp only [smartPollingTick, hp, hc, hf, if_true, if_false] at h <;>
            rcases l1 with _ | ⟨x, _ | ⟨y, l1⟩⟩ <;> simp_all

theorem renderPollingTick_final (s : RenderPollState) (r : PollResponse)
    (l1 l2 : List PollEvent) (ha : s.polling = true)
    (h : (renderPollingTick s r).2 = l1 ++ .finalResultsFetch :: l2) :
    l2 = [] ∧ (renderPollingTick s r).1.polling = false := by
  cases r with
  | netError =>
      simp only [renderPollingTick] at h
      rcases l1 with _ | ⟨x, l1⟩ <;> simp_all
  | notFound =>
      simp only [renderPollingTick] at h
      rcases l1 with _ | ⟨x, l1⟩ <;> simp_all
  | serverError c =>
      simp only [renderPollingTick] at h
      rcases l1 with _ | ⟨x, l1⟩ <;> simp_all
  | ok d =>
      by_cases hc : d.status = "completed"
      · simp only [renderPollingTick, hc, if_true, if_false] at h ⊢
        rcases l1 with _ | ⟨x, _ | ⟨y, _ | ⟨z, l1⟩⟩⟩ <;> simp_all
      · by_cases hf : d.status = "failed" <;>
          simp only [renderPollingTick, hc, hf, if_true, if_false] at h <;>
          rcases l1 with _ | ⟨x, _ | ⟨y, l1⟩⟩ <;> simp_all

theorem plainPollingTick_final (s : PlainPollState) (r : PollResponse)
    (l1 l2 : List PollEvent) (ha : s.polling = true)
    (h : (plainPollingTick s r).2 = l1 ++ .finalResultsFetch :: l2) :
    l2 = [] ∧ (plainPollingTick s r).1.polling = false := by
  cases r with
  | netError =>
      by_cases h5 : 5 ≤ s.errCount + 1 <;>
        simp only [plainPollingTick, h5, if_true, if_false] at h <;>
        rcases l1 with _ | ⟨x, l1⟩ <;> simp_all
  | notFound =>
      by_cases h2 : 2 ≤ s.errCount + 1 <;>
        simp only [plainPollingTick, h2, if_true, if_false] at h <;>
        rcases l1 with _ | ⟨x, l1⟩ <;> simp_all
  | serverError c =>
      by_cases hcode : c = 502 ∨ c = 503 ∨ c = 500
      · by_cases h3 : 3 ≤ s.errCount + 1 <;>
          simp only [plainPollingTick, hcode, h3, if_true, if_false] at h <;>
          rcases l1 with _ | ⟨x, l1⟩ <;> simp_all
      · simp only [plainPollingTick, hcode, if_false] at h
        rcases l1 with _ | ⟨x, l1⟩ <;> simp_all
  | ok d =>
      by_cases hc : d.status = "completed"
      · simp only [plainPollingTick, hc, if_true, if_false] at h ⊢
        rcases l1 with _ | ⟨x, _ | ⟨y, l1⟩⟩ <;> simp_all
      · by_cases hf : d.status = "failed" ∨ d.status = "cancelled" <;>
          simp only [plainPollingTick, hc, hf, if_true, if_false] at h <;>
          rcases l1 with _ | ⟨x, l1⟩ <;> simp_all

theorem smartPollingTick_ok_count (s : SmartPollState) (d : JobData) (b : Bool) :
    (smartPollingTick s (.ok d, b)).1.notFoundCount = 0 := by
  by_cases hp : d.status = "processing"
  · simp [smartPollingTick, hp]
  · by_cases hc : d.status = "completed"
    · simp [smartPollingTick, hp, hc]
    · by_cases hf : d.status = "failed" <;> simp [smartPollingTick, hp, hc, hf]

theorem plainPollingTick_ok_count (s : PlainPollState) (d : JobData) :
    (plainPollingTick s (.ok d)).1.errCount = 0 := by
  by_cases hc : d.status = "completed"
  · simp [plainPollingTick, hc]
  · by_cases hf : d.status = "failed" ∨ d.status = "cancelled" <;>
      simp [plainPollingTick, hc, hf]

theorem smartPollingTick_ok_polling (s : SmartPollState) (d : JobData) (b : Bool)
    (h1 : d.status ≠ "completed") (h2 : d.status ≠ "failed") :
    (smartPollingTick s (.ok d, b)).1.polling = s.polling := by
  by_cases hp : d.status = "processing" <;> simp [smartPollingTick, hp, h1, h2]

theorem plainPollingTick_ok_polling (s : PlainPollState) (d : JobData)
    (h1 : d.status ≠ "completed") (h2 : d.status ≠ "failed")
    (h3 : d.status ≠ "cancelled") :
    (plainPollingTick s (.ok d)).1.polling = s.polling := by
  simp [plainPollingTick, h1, h2, h3]

theorem smartPollingTick_error_polling (s : SmartPollState) (e : PollResponse)
    (b : Bool) (he : e.isTransientError = true) (hn : s.notFoundCount ≤ 1) :
    (smartPollingTick s (e, b)).1.polling = s.polling := by
  cases e with
  | ok d => simp [PollResponse.isTransientError] at he
  | netError => rfl
  | serverError c => rfl
  | notFound =>
      have h3 : ¬ 3 ≤ s.notFoundCount + 1 := by omega
      simp [smartPollingTick, h3]

theorem plainPollingTick_error_polling (s : PlainPollState) (e : PollResponse)
    (he : e.isTransientError = true) (hn : s.errCount = 0) :
    (plainPollingTick s e).1.polling = s.polling := by
  cases e with
  | ok d => simp [PollResponse.isTransientError] at he
  | netError =>
      have h5 : ¬ 5 ≤ s.errCount + 1 := by omega
      simp [plainPollingTick, h5]
  | notFound =>
      have h2 : ¬ 2 ≤ s.errCount + 1 := by omega
      simp [plainPollingTick, h2]
  | serverError c =>
      by_cases hcode : c = 502 ∨ c = 503 ∨ c = 500
      · have h3 : ¬ 3 ≤ s.errCount + 1 := by omega
        simp [plainPollingTick, hcode, h3]
      · simp [plainPollingTick, hcode]

/-! ### Claims -/

/-- C3 (counterexample): not every polling loop gives up after 3 consecutive
NotFound responses.  `startPolling` has already abandoned the job after only
2 consecutive 404 responses (threshold `>= 2`, App.jsx:1897), and
`startRenderPolling` is still polling after 5 consecutive 404 responses. -/
theorem C3_counterexample :
    (plainRunState (plainPollInit "job-1") (List.replicate 2 .notFound)).polling = false ∧
    (plainRunState (plainPollInit "job-1") (List.replicate 2 .notFound)).job
      = jobLostJob "job-1" ∧
    (renderRunState (renderPollInit "job-1") (List.replicate 5 .notFound)).polling = true := by
  decide

/-- C3 (amended): `startSmartPolling` treats the job as lost and gives up
after exactly 3 consecutive NotFound responses, surfacing a job-lost
failure; `startPolling` gives up after only 2 consecutive NotFound
responses (on a counter shared with other error kinds); and
`startRenderPolling` never gives up on NotFound responses. -/
theorem C3_notFound_abandonment :
    ((smartRunState (smartPollInit "job-1") (List.replicate 2 (.notFound, false))).polling = true ∧
     (smartRunState (smartPollInit "job-1") (List.replicate 3 (.notFound, false))).polling = false ∧
     (smartRunState (smartPollInit "job-1") (List.replicate 3 (.notFound, false))).job.status
        = "failed" ∧
     (smartRunState (smartPollInit "job-1") (List.replicate 3 (.notFound, false))).job.error
        = some jobLostMessage) ∧
    ((plainRunState (plainPollInit "job-1") (List.replicate 1 .notFound)).polling = true ∧
     (plainRunState (plainPollInit "job-1") (List.replicate 2 .notFound)).polling = false ∧
     (plainRunState (plainPollInit "job-1") (List.replicate 2 .notFound)).job.stage
        = "Job Lost") ∧
    (∀ n : ℕ,
      (renderRunState (renderPollInit "job-1") (List.replicate n .notFound)).polling = true) := by
  refine ⟨by decide, by decide, fun n => ?_⟩
  rw [renderRunState_error_replicate n _ .notFound rfl]
  rfl

/-- C4 (counterexample): it is false that every polling code path abandons
after at most 5 consecutive transient errors: after 10 consecutive 503
responses both `startRenderPolling` and `startSmartPolling` are still
polling, so these paths retry transient errors indefinitely. -/
theorem C4_counterexample :
    (renderRunState (renderPollInit "job-1") (List.replicate 10 (.serverError 503))).polling
        = true ∧
    (smartRunState (smartPollInit "job-1")
        (List.replicate 10 (.serverError 503, false))).polling = true := by
  decide

/-- C4 (amended): only `startPolling` abandons after a bounded number of
consecutive transient errors, with thresholds 3 for 5xx, 2 for NotFound
and 5 for network errors (so between 2 and 5, not 3 and 5);
`startSmartPolling` abandons only after 3 consecutive NotFound responses
and retries 5xx and network errors indefinitely; `startRenderPolling`
never abandons on any transient error. -/
theorem C4_transient_error_abandonment :
    ((plainRunState (plainPollInit "job-1") (List.replicate 3 (.serverError 500))).polling
        = false ∧
     (plainRunState (plainPollInit "job-1") (List.replicate 2 (.serverError 500))).polling
        = true ∧
     (plainRunState (plainPollInit "job-1") (List.replicate 2 .notFound)).polling = false ∧
     (plainRunState (plainPollInit "job-1") (List.replicate 1 .notFound)).polling = true ∧
     (plainRunState (plainPollInit "job-1") (List.replicate 5 .netError)).polling = false ∧
     (plainRunState (plainPollInit "job-1") (List.replicate 4 .netError)).polling = true) ∧
    ((smartRunState (smartPollInit "job-1") (List.replicate 3 (.notFound, false))).polling
        = false ∧
     (∀ (n c : ℕ) (b : Bool),
        (smartRunState (smartPollInit "job-1")
          (List.replicate n (.serverError c, b))).polling = true) ∧
     (∀ (n : ℕ) (b : Bool),
        (smartRunState (smartPollInit "job-1")
          (List.replicate n (.netError, b))).polling = true)) ∧
    (∀ (n : ℕ) (r : PollResponse), r.isTransientError = true →
        (renderRunState (renderPollInit "job-1") (List.replicate n r)).polling = true) := by
  refine ⟨by decide, ⟨by decide, fun n c b => ?_, fun n b => ?_⟩, fun n r hr => ?_⟩
  · rw [smartRunState_serverError_replicate n c b _ rfl]; rfl
  · rw [smartRunState_netError_replicate n b _]; rfl
  · rw [renderRunState_error_replicate n _ r hr]; rfl

/-- C4 witness: the amended theorem applied at a concrete input discharging
its hypothesis: 3 consecutive 404 responses leave `startRenderPolling`
polling. -/
theorem C4_transient_error_abandonment_witness :
    (renderRunState (renderPollInit "job-1") (List.replicate 3 .notFound)).polling = true :=
  C4_transient_error_abandonment.2.2 3 .notFound rfl

/-- C5: while `startPolling` polls a job's status, consecutive 5xx responses
increment the error counter and the 3rd consecutive one stops polling with
a server-crash terminal error; 4 consecutive 503 responses cause
abandonment after the 3rd (only 3 status fetches are ever issued). -/
theorem C5_consecutive_5xx_abandonment :
    (plainRunState (plainPollInit "job-1") (List.replicate 1 (.serverError 503))).errCount
        = 1 ∧
    (plainRunState (plainPollInit "job-1") (List.replicate 2 (.serverError 503))).errCount
        = 2 ∧
    (plainRunState (plainPollInit "job-1") (List.replicate 2 (.serverError 503))).polling
        = true ∧
    (plainRunState (plainPollInit "job-1") (List.replicate 3 (.serverError 503))).polling
        = false ∧
    (plainRunState (plainPollInit "job-1") (List.replicate 3 (.serverError 503))).job
        = serverCrashedJob "job-1" ∧
    (plainRunState (plainPollInit "job-1") (List.replicate 4 (.serverError 503))).polling
        = false ∧
    (plainRunState (plainPollInit "job-1") (List.replicate 4 (.serverError 503))).job.status
        = "failed" ∧
    (plainRunEvents (plainPollInit "job-1") (List.replicate 4 (.serverError 503))).count
        .statusFetch = 3 := by
  decide

/-- C8: every client polling loop fires on a fixed 2000 ms interval: the
interval constant of all three loops is 2000, and successive status-fetch
firings are 2000 ms apart. -/
theorem C8_fixed_two_second_interval :
    (startSmartPolling.intervalMs = 2000 ∧ startRenderPolling.intervalMs = 2000 ∧
      startPolling.intervalMs = 2000) ∧
    (∀ n : ℕ,
      fetchTimeMs startSmartPolling (n + 1) - fetchTimeMs startSmartPolling n = 2000 ∧
      fetchTimeMs startRenderPolling (n + 1) - fetchTimeMs startRenderPolling n = 2000 ∧
      fetchTimeMs startPolling (n + 1) - fetchTimeMs startPolling n = 2000) := by
  refine ⟨⟨rfl, rfl, rfl⟩, fun n => ?_⟩
  refine ⟨?_, ?_, ?_⟩ <;>
    simp [fetchTimeMs, startSmartPolling, startRenderPolling, startPolling] <;> omega

/-- C7: cooperative cancellation.  In the spec-modelled backend protocol, a
processing job whose cancel request was acknowledged reaches `cancelled` or
another terminal status at its very next stage checkpoint, and a cancelled
job never resumes; on the client, an acknowledged cancel request flips the
`currentJob` status to `cancelling` (App.jsx:1964-1970). -/
theorem C7_cooperative_cancellation :
    (∀ s s' : CancellableJob, CancelStep s s' → s.status = "processing" →
        s.cancelRequested = true → s'.status ∈ terminalStatuses) ∧
    (∀ s s' : CancellableJob, CancelStep s s' → s.status = "cancelled" →
        s'.status = "cancelled") ∧
    (∀ j : ClientJob, (cancelJob j true).status = "cancelling") := by
  refine ⟨?_, ?_, ?_⟩
  · intro s s' hstep h hc
    cases hstep with
    | observeCancel h' hc' => decide
    | finishAtCheckpoint t h' ht => exact ht
    | continueWork h' hc' => rw [hc] at hc'; exact absurd hc' (by decide)
    | terminalStay h' => rw [h] at h'; exact absurd h' (by decide)
  · intro s s' hstep h
    cases hstep with
    | observeCancel h' hc' => rfl
    | finishAtCheckpoint t h' ht => exact absurd (h.symm.trans h') (by decide)
    | continueWork h' hc' => exact absurd (h.symm.trans h') (by decide)
    | terminalStay h' => exact h
  · intro j; rfl

/-- C7 witness: the theorem applied to a concrete processing job with an
acknowledged cancel request stepping to `cancelled`, a concrete cancelled
job staying cancelled, and a concrete client job flipped to `cancelling`. -/
theorem C7_cooperative_cancellation_witness :
    ("cancelled" ∈ terminalStatuses) ∧
    ((⟨"cancelled", true⟩ : CancellableJob).status = "cancelled") ∧
    ((cancelJob (freshJob "job-1") true).status = "cancelling") :=
  ⟨C7_cooperative_cancellation.1 ⟨"processing", true⟩ ⟨"cancelled", true⟩
      (.observeCancel _ rfl rfl) rfl rfl,
   C7_cooperative_cancellation.2.1 ⟨"cancelled", true⟩ ⟨"cancelled", true⟩
      (.terminalStay _ (by decide)) rfl,
   C7_cooperative_cancellation.2.2 (freshJob "job-1")⟩

/-- C10: the client persists the current job to localStorage only while its
status is `processing` (jobs in any other status leave storage untouched),
and on page load it resumes polling a persisted job only when the record is
strictly less than 30 minutes old; a record 30 minutes old or older is
discarded and no polling starts. -/
theorem C10_persist_and_resume :
    (∀ (storage : Option StoredJob) (j : ClientJob) (now : ℤ),
        j.status ≠ "processing" → persistJobEffect storage (some j) now = storage) ∧
    (∀ (storage : Option StoredJob) (j : ClientJob) (now : ℤ),
        j.id ≠ "" → j.status = "processing" →
        persistJobEffect storage (some j) now = some { id := j.id, startedAt := now }) ∧
    (∀ (rec : StoredJob) (now : ℤ), now - rec.startedAt < 30 * 60 * 1000 →
        resumeOnLoad (some rec) none now = (.resumePolling rec.id, some rec)) ∧
    (∀ (rec : StoredJob) (now : ℤ), ¬ now - rec.startedAt < 30 * 60 * 1000 →
        resumeOnLoad (some rec) none now = (.discard, none)) := by
  refine ⟨?_, ?_, ?_, ?_⟩
  · intro storage j now h; simp [persistJobEffect, h]
  · intro storage j now hid h; simp [persistJobEffect, hid, h]
  · intro rec now h
    have h' : now - rec.startedAt < 30 * 60 * 1000 := h
    simp [resumeOnLoad, h']
    omega
  · intro rec now h
    simp [resumeOnLoad, h]
    omega

/-- C10 witness: the theorem applied at concrete inputs: a completed job is
not persisted, a processing one is, a 10 ms old record resumes, and an
exactly 30 minutes old record is discarded. -/
theorem C10_persist_and_resume_witness :
    persistJobEffect none (some { freshJob "a" with status := "completed" }) 5 = none ∧
    persistJobEffect none (some (freshJob "a")) 5 = some { id := "a", startedAt := 5 } ∧
    resumeOnLoad (some { id := "a", startedAt := 0 }) none 10
      = (.resumePolling "a", some { id := "a", startedAt := 0 }) ∧
    resumeOnLoad (some { id := "a", startedAt := 0 }) none (30 * 60 * 1000)
      = (.discard, none) :=
  ⟨C10_persist_and_resume.1 none _ 5 (by decide),
   C10_persist_and_resume.2.1 none (freshJob "a") 5 (by decide) rfl,
   C10_persist_and_resume.2.2.1 { id := "a", startedAt := 0 } 10 (by decide),
   C10_persist_and_resume.2.2.2 { id := "a", startedAt := 0 } (30 * 60 * 1000) (by decide)⟩

/-- C6: in every polling loop, a tick that observes `status = completed`
issues the final-results fetch exactly once and clears the interval, and in
any whole session no event at all — in particular no status fetch — follows
a final-results fetch. -/
theorem C6_completed_fetches_results_once_and_stops :
    (∀ (s : SmartPollState) (tr : List (PollResponse × Bool)) (l1 l2 : List PollEvent),
        smartRunEvents s tr = l1 ++ .finalResultsFetch :: l2 → l2 = []) ∧
    (∀ (s : RenderPollState) (tr : List PollResponse) (l1 l2 : List PollEvent),
        renderRunEvents s tr = l1 ++ .finalResultsFetch :: l2 → l2 = []) ∧
    (∀ (s : PlainPollState) (tr : List PollResponse) (l1 l2 : List PollEvent),
        plainRunEvents s tr = l1 ++ .finalResultsFetch :: l2 → l2 = []) ∧
    (∀ (s : SmartPollState) (d : JobData) (b : Bool), d.status = "completed" →
        (smartPollingTick s (.ok d, b)).2.count .finalResultsFetch = 1 ∧
        (smartPollingTick s (.ok d, b)).1.polling = false) ∧
    (∀ (s : RenderPollState) (d : JobData), d.status = "completed" →
        (renderPollingTick s (.ok d)).2.count .finalResultsFetch = 1 ∧
        (renderPollingTick s (.ok d)).1.polling = false) ∧
    (∀ (s : PlainPollState) (d : JobData), d.status = "completed" →
        (plainPollingTick s (.ok d)).2.count .finalResultsFetch = 1 ∧
        (plainPollingTick s (.ok d)).1.polling = false) := by
  refine ⟨?_, ?_, ?_, ?_, ?_, ?_⟩
  · intro s tr l1 l2 h
    exact runEvents_final_is_last smartPollingTick (fun s => s.polling)
      smartPollingTick_final tr s l1 l2 h
  · intro s tr l1 l2 h
    exact runEvents_final_is_last renderPollingTick (fun s => s.polling)
      renderPollingTick_final tr s l1 l2 h
  · intro s tr l1 l2 h
    exact runEvents_final_is_last plainPollingTick (fun s => s.polling)
      plainPollingTick_final tr s l1 l2 h
  · intro s d b h
    have hp : ¬ d.status = "processing" := by rw [h]; decide
    constructor <;> simp [smartPollingTick, hp, h]
  · intro s d h
    constructor <;> simp [renderPollingTick, h]
  · intro s d h
    constructor <;> simp [plainPollingTick, h]

/-- C6 witness: the theorem applied at concrete inputs: a completed payload
makes each of the three ticks emit exactly one final-results fetch and
clear its interval, and a concrete smart session whose events end in the
final-results fetch has nothing after it. -/
theorem C6_completed_fetches_results_once_and_stops_witness :
    ((smartPollingTick (smartPollInit "job-1") (.ok completedPayload, false)).2.count
        .finalResultsFetch = 1 ∧
      (smartPollingTick (smartPollInit "job-1") (.ok completedPayload, false)).1.polling
        = false) ∧
    ((renderPollingTick (renderPollInit "job-1") (.ok completedPayload)).2.count
        .finalResultsFetch = 1 ∧
      (renderPollingTick (renderPollInit "job-1") (.ok completedPayload)).1.polling
        = false) ∧
    ((plainPollingTick (plainPollInit "job-1") (.ok completedPayload)).2.count
        .finalResultsFetch = 1 ∧
      (plainPollingTick (plainPollInit "job-1") (.ok completedPayload)).1.polling
        = false) ∧
    ([] : List PollEvent) = [] :=
  ⟨C6_completed_fetches_results_once_and_stops.2.2.2.1 (smartPollInit "job-1")
      completedPayload false rfl,
   C6_completed_fetches_results_once_and_stops.2.2.2.2.1 (renderPollInit "job-1")
      completedPayload rfl,
   C6_completed_fetches_results_once_and_stops.2.2.2.2.2 (plainPollInit "job-1")
      completedPayload rfl,
   C6_completed_fetches_results_once_and_stops.1 (smartPollInit "job-1")
      [(.ok completedPayload, false), (.notFound, false)]
      [.statusFetch, .logsFetch] [] (by decide)⟩

/-- C9: in the polling loops that count errors, a successfully parsed status
fetch resets the consecutive-error counter to zero (`notFoundCount` in
`startSmartPolling`, App.jsx:1591; `pollErrorCountRef` in `startPolling`,
App.jsx:1913), so polling is abandoned only after strictly consecutive
failures: a single non-terminal success between failures leaves the loop's
aliveness exactly as it was, whatever errors preceded it. -/
theorem C9_success_resets_error_counter :
    (∀ (s : SmartPollState) (d : JobData) (b : Bool),
        (smartPollingTick s (.ok d, b)).1.notFoundCount = 0) ∧
    (∀ (s : PlainPollState) (d : JobData),
        (plainPollingTick s (.ok d)).1.errCount = 0) ∧
    (∀ (s : SmartPollState) (tr : List (PollResponse × Bool)) (d : JobData)
        (b b' : Bool) (e : PollResponse), e.isTransientError = true →
        d.status ≠ "completed" → d.status ≠ "failed" →
        (smartRunState s (tr ++ [(.ok d, b), (e, b')])).polling
          = (smartRunState s tr).polling) ∧
    (∀ (s : PlainPollState) (tr : List PollResponse) (d : JobData)
        (e : PollResponse), e.isTransientError = true →
        d.status ≠ "completed" → d.status ≠ "failed" → d.status ≠ "cancelled" →
        (plainRunState s (tr ++ [.ok d, e])).polling
          = (plainRunState s tr).polling) := by
  refine ⟨smartPollingTick_ok_count, plainPollingTick_ok_count, ?_, ?_⟩
  · intro s tr d b b' e he h1 h2
    have happ : smartRunState s (tr ++ [(.ok d, b), (e, b')])
        = runState smartPollingTick (fun s => s.polling) (smartRunState s tr)
            [(.ok d, b), (e, b')] :=
      runState_append smartPollingTick (fun s => s.polling) s tr _
    rw [happ]
    by_cases hp : (smartRunState s tr).polling = true
    · have hply : (smartPollingTick (smartRunState s tr) (.ok d, b)).1.polling = true := by
        rw [smartPollingTick_ok_polling _ d b h1 h2]; exact hp
      have e1 : runState smartPollingTick (fun s => s.polling) (smartRunState s tr)
          [(.ok d, b), (e, b')]
          = (smartPollingTick (smartPollingTick (smartRunState s tr) (.ok d, b)).1
              (e, b')).1 := by
        simp [runState, hp, hply]
      rw [e1,
        smartPollingTick_error_polling _ e b' he
          (by rw [smartPollingTick_ok_count]; omega),
        smartPollingTick_ok_polling _ d b h1 h2]
    · have e1 : runState smartPollingTick (fun s => s.polling) (smartRunState s tr)
          [(.ok d, b), (e, b')] = smartRunState s tr := by
        simp [runState, hp]
      rw [e1]
  · intro s tr d e he h1 h2 h3
    have happ : plainRunState s (tr ++ [.ok d, e])
        = runState plainPollingTick (fun s => s.polling) (plainRunState s tr)
            [.ok d, e] :=
      runState_append plainPollingTick (fun s => s.polling) s tr _
    rw [happ]
    by_cases hp : (plainRunState s tr).polling = true
    · have hply : (plainPollingTick (plainRunState s tr) (.ok d)).1.polling = true := by
        rw [plainPollingTick_ok_polling _ d h1 h2 h3]; exact hp
      have e1 : runState plainPollingTick (fun s => s.polling) (plainRunState s tr)
          [.ok d, e]
          = (plainPollingTick (plainPollingTick (plainRunState s tr) (.ok d)).1 e).1 := by
        simp [runState, hp, hply]
      rw [e1,
        plainPollingTick_error_polling _ e he (plainPollingTick_ok_count _ d),
        plainPollingTick_ok_polling _ d h1 h2 h3]
    · have e1 : runState plainPollingTick (fun s => s.polling) (plainRunState s tr)
          [.ok d, e] = plainRunState s tr := by
        simp [runState, hp]
      rw [e1]

/-- C9 witness: the theorem applied at concrete inputs: after two NotFound
responses (count 2 of 3), a successful processing fetch followed by a third
NotFound leaves `startSmartPolling` polling — the success restarted the
count — and likewise for `startPolling` after a network error. -/
theorem C9_success_resets_error_counter_witness :
    (smartPollingTick (smartPollInit "job-1") (.ok processingPayload, false)).1.notFoundCount
        = 0 ∧
    (plainPollingTick (plainPollInit "job-1") (.ok processingPayload)).1.errCount = 0 ∧
    (smartRunState (smartPollInit "job-1")
        ([(.notFound, false), (.notFound, false)]
          ++ [(.ok processingPayload, false), (.notFound, false)])).polling
      = (smartRunState (smartPollInit "job-1")
          [(.notFound, false), (.notFound, false)]).polling ∧
    (plainRunState (plainPollInit "job-1")
        ([.netError] ++ [.ok processingPayload, .notFound])).polling
      = (plainRunState (plainPollInit "job-1") [.netError]).polling :=
  ⟨C9_success_resets_error_counter.1 (smartPollInit "job-1") processingPayload false,
   C9_success_resets_error_counter.2.1 (plainPollInit "job-1") processingPayload,
   C9_success_resets_error_counter.2.2.1 (smartPollInit "job-1")
      [(.notFound, false), (.notFound, false)] processingPayload false false
      .notFound rfl (by decide) (by decide),
   C9_success_resets_error_counter.2.2.2 (plainPollInit "job-1") [.netError]
      processingPayload .notFound rfl (by decide) (by decide) (by decide)⟩

theorem statusRank_terminal (t : String) (ht : t ∈ terminalStatuses) :
    statusRank t = 4 := by
  simp only [terminalStatuses, List.mem_cons, List.mem_singleton,
    List.not_mem_nil, or_false] at ht
  rcases ht with rfl | rfl | rfl <;> rfl

theorem statusRank_le_of_serverStep {s s' : ServerJob} (h : ServerStep s s') :
    statusRank s.status ≤ statusRank s'.status := by
  cases h with
  | stay => exact le_refl _
  | start h =>
      rw [h]
      show statusRank "queued" ≤ statusRank "processing"
      decide
  | progressUpdate p h hp => rw [h]
  | toWaiting h =>
      rw [h]
      show statusRank "processing" ≤ statusRank "waiting_for_worker"
      decide
  | toRendering h =>
      rw [h]
      show statusRank "waiting_for_worker" ≤ statusRank "rendering"
      decide
  | finishFromProcessing t h ht =>
      rw [h]
      show statusRank "processing" ≤ statusRank t
      rw [statusRank_terminal t ht]
      decide
  | finishFromRendering t h ht =>
      rw [h]
      rcases ht with rfl | rfl
      · show statusRank "rendering" ≤ statusRank "completed"
        decide
      · show statusRank "rendering" ≤ statusRank "failed"
        decide

theorem statusRank_mono (f : ℕ → ServerJob)
    (hf : ∀ n, ServerStep (f n) (f (n + 1))) :
    ∀ i j, i ≤ j → statusRank (f i).status ≤ statusRank (f j).status := by
  intro i j hij
  induction j, hij using Nat.le_induction with
  | base => exact le_refl _
  | succ n hin ih => exact le_trans ih (statusRank_le_of_serverStep (hf n))

theorem status_eq_processing_of_rank_one (st : String) (h : statusRank st = 1) :
    st = "processing" := by
  unfold statusRank at h
  split_ifs at h <;> simp_all

theorem progress_le_of_serverStep_processing {s s' : ServerJob}
    (h : ServerStep s s') (h1 : s.status = "processing")
    (h2 : s'.status = "processing") : s.progress ≤ s'.progress := by
  cases h with
  | stay => exact le_refl _
  | start h => exact le_refl _
  | progressUpdate p h hp => exact hp
  | toWaiting h => exact le_refl _
  | toRendering h => exact le_refl _
  | finishFromProcessing t h ht => exact le_refl _
  | finishFromRendering t h ht => exact le_refl _

theorem serverStep_terminal_fixed {s s' : ServerJob} (h : ServerStep s s')
    (ht : s.status ∈ terminalStatuses) : s' = s := by
  cases h with
  | stay => rfl
  | start h => rw [h] at ht; exact absurd ht (by decide)
  | progressUpdate p h hp => rw [h] at ht; exact absurd ht (by decide)
  | toWaiting h => rw [h] at ht; exact absurd ht (by decide)
  | toRendering h => rw [h] at ht; exact absurd ht (by decide)
  | finishFromProcessing t h hmem => rw [h] at ht; exact absurd ht (by decide)
  | finishFromRendering t h hd => rw [h] at ht; exact absurd ht (by decide)

theorem serverTrace_terminal_fixed (f : ℕ → ServerJob)
    (hf : ∀ n, ServerStep (f n) (f (n + 1))) (i : ℕ)
    (hi : (f i).status ∈ terminalStatuses) :
    ∀ j, i ≤ j → f j = f i := by
  intro j hij
  induction j, hij using Nat.le_induction with
  | base => rfl
  | succ n hin ih =>
      rw [serverStep_terminal_fixed (hf n) (by rw [ih]; exact hi)]
      exact ih

/-- C1: while a job's status is `processing`, its reported progress is
monotonically non-decreasing in the spec-modelled backend lifecycle
(`ServerStep`): at any two observation points with `status = processing`,
the later progress is at least the earlier one.  The client reports the
fetched progress verbatim: after any successful fetch, `startSmartPolling`
stores exactly the payload's progress in the `currentJob` mirror
(App.jsx:1603-1609). -/
theorem C1_progress_monotone_while_processing :
    (∀ f : ℕ → ServerJob, (∀ n, ServerStep (f n) (f (n + 1))) →
      ∀ i j, i ≤ j → (f i).status = "processing" → (f j).status = "processing" →
        (f i).progress ≤ (f j).progress) ∧
    (∀ (s : SmartPollState) (d : JobData) (b : Bool),
        (smartPollingTick s (.ok d, b)).1.job.progress = d.progress) := by
  constructor
  · intro f hf i j hij hi
    induction j, hij using Nat.le_induction with
    | base => intro _; exact le_refl _
    | succ n hin ih =>
        intro hn1
        have hr1 : statusRank (f i).status = 1 := by rw [hi]; rfl
        have hrn1 : statusRank (f (n + 1)).status = 1 := by rw [hn1]; rfl
        have ha : statusRank (f i).status ≤ statusRank (f n).status :=
          statusRank_mono f hf i n hin
        have hb : statusRank (f n).status ≤ statusRank (f (n + 1)).status :=
          statusRank_le_of_serverStep (hf n)
        have hn : (f n).status = "processing" :=
          status_eq_processing_of_rank_one _ (by omega)
        exact le_trans (ih hn)
          (progress_le_of_serverStep_processing (hf n) hn hn1)
  · intro s d b
    by_cases hp : d.status = "processing"
    · simp [smartPollingTick, hp]
    · by_cases hc : d.status = "completed"
      · simp [smartPollingTick, hp, hc]
      · by_cases hf : d.status = "failed" <;> simp [smartPollingTick, hp, hc, hf]

/-- C1 witness: the theorem applied to the concrete trace
`n ↦ {status := processing, progress := n}` (each step a `progressUpdate`)
at observation points 0 and 1, and the client pass-through at a concrete
processing payload. -/
theorem C1_progress_monotone_while_processing_witness :
    ((0 : ℕ) : ℚ) ≤ ((1 : ℕ) : ℚ) ∧
    (smartPollingTick (smartPollInit "job-1")
        (.ok processingPayload, false)).1.job.progress = processingPayload.progress :=
  ⟨C1_progress_monotone_while_processing.1
      (fun n => { status := "processing", progress := (n : ℚ) })
      (fun n => ServerStep.progressUpdate _ _ rfl
        (by show ((n : ℚ)) ≤ (((n + 1 : ℕ)) : ℚ); exact_mod_cast Nat.le_succ n))
      0 1 (by omega) rfl rfl,
   C1_progress_monotone_while_processing.2 (smartPollInit "job-1")
      processingPayload false⟩

/-- C2: in the spec-modelled backend lifecycle (`ServerStep`), status
transitions are one-directional — along any trace the status's position in
`queued → processing → waiting_for_worker → rendering → terminal` never
decreases — and no job ever records two different terminal statuses:
terminal states are absorbing, so any two terminal observations of the
same job coincide. -/
theorem C2_one_directional_no_two_terminals :
    (∀ f : ℕ → ServerJob, (∀ n, ServerStep (f n) (f (n + 1))) →
        ∀ i j, i ≤ j → statusRank (f i).status ≤ statusRank (f j).status) ∧
    (∀ f : ℕ → ServerJob, (∀ n, ServerStep (f n) (f (n + 1))) →
        ∀ i j, (f i).status ∈ terminalStatuses → (f j).status ∈ terminalStatuses →
          (f i).status = (f j).status) := by
  constructor
  · exact statusRank_mono
  · intro f hf i j hi hj
    rcases le_total i j with h | h
    · rw [serverTrace_terminal_fixed f hf i hi j h]
    · rw [serverTrace_terminal_fixed f hf j hj i h]

/-- C2 witness: the theorem applied to the concrete constant trace at
`{status := completed, progress := 1}` (each step a `stay`), at observation
points 0 and 1. -/
theorem C2_one_directional_no_two_terminals_witness :
    statusRank "completed" ≤ statusRank "completed" ∧
    ("completed" : String) = "completed" :=
  ⟨C2_one_directional_no_two_terminals.1
      (fun _ => { status := "completed", progress := 1 })
      (fun n => ServerStep.stay _) 0 1 (by omega),
   C2_one_directional_no_two_terminals.2
      (fun _ => { status := "completed", progress := 1 })
      (fun n => ServerStep.stay _) 0 1 (by decide) (by decide)⟩

end VideoClipper
